import Mathlib

/-
Shallow embedding of the PinThePiece note storage engine
(src/pinthepiece/server.py) together with proofs checking the
natural-language specification against the code.

Modelling conventions, derived from the source:
* Python dicts keyed by strings become association lists (`aget`, `aset`,
  `aerase`), which preserve insertion order the way Python dicts do.
* `datetime` values are abstracted to a `DateTime` record (year, month, and
  a `tick` collapsing the remaining precision), ordered lexicographically;
  `isoformat`/`fromisoformat` become the `iso`/`fromIso` codec on it.
* SHA-256 is abstracted to an arbitrary digest function
  `hash : String → String` passed as a parameter; no theorem below depends
  on any property of the digest beyond it being a function.
* Exceptions become `Except`/`Option` results; distinct Python exception
  situations become distinct error constructors.  A `NameError` raised by
  reading an undefined identifier is modelled by a dedicated constructor.
* File contents on disk are association lists from path to content.
-/

/-- Lookup in an association list keyed by strings (Python `d[k]` / `d.get(k)`). -/
def aget {α : Type} : List (String × α) → String → Option α
  | [], _ => none
  | (q, v) :: t, k => if q = k then some v else aget t k

/-- Insert-or-replace in an association list (Python `d[k] = v`). -/
def aset {α : Type} : List (String × α) → String → α → List (String × α)
  | [], k, v => [(k, v)]
  | (q, w) :: t, k, v => if q = k then (k, v) :: t else (q, w) :: aset t k v

/-- Remove a key from an association list (Python `del d[k]`, `os.unlink`). -/
def aerase {α : Type} : List (String × α) → String → List (String × α)
  | [], _ => []
  | (q, w) :: t, k => if q = k then aerase t k else (q, w) :: aerase t k

/-- Abstraction of a Python `datetime`: year and month (used by the
hierarchical path layout) plus a `tick` collapsing day/time/microsecond. -/
structure DateTime where
  year : Nat
  month : Nat
  tick : Nat
deriving DecidableEq, Repr

/-- Lexicographic order on abstracted datetimes, matching chronological
order of real datetimes. -/
def DateTime.lt (a b : DateTime) : Prop :=
  a.year < b.year ∨
    (a.year = b.year ∧ (a.month < b.month ∨ (a.month = b.month ∧ a.tick < b.tick)))

instance : LT DateTime := ⟨DateTime.lt⟩

instance (a b : DateTime) : Decidable (a < b) :=
  show Decidable (a.year < b.year ∨
    (a.year = b.year ∧ (a.month < b.month ∨ (a.month = b.month ∧ a.tick < b.tick))))
  from inferInstance

/-- Model of `datetime.isoformat`: an injective textual encoding of the
abstracted datetime. -/
def iso (d : DateTime) : String :=
  toString d.year ++ "-" ++ toString d.month ++ "-" ++ toString d.tick

/-- Splitting a character list on a separator character, accumulator style
(model of Python `str.split(sep)` for a one-character separator). -/
def splitCharAux (sep : Char) : List Char → List Char → List (List Char)
  | [], acc => [acc.reverse]
  | c :: t, acc =>
      if c == sep then acc.reverse :: splitCharAux sep t []
      else splitCharAux sep t (c :: acc)

/-- Model of Python `str.split(sep)` for a one-character separator. -/
def splitChar (sep : Char) (s : String) : List String :=
  (splitCharAux sep s.data []).map String.mk

/-- ASCII whitespace test used by the `strip` model. -/
def isWsp (c : Char) : Bool :=
  c == ' ' || c == '\t' || c == '\n' || c == '\r'

/-- Model of Python `str.strip()` (on ASCII whitespace). -/
def pyStrip (s : String) : String :=
  String.mk (((s.data.dropWhile isWsp).reverse.dropWhile isWsp).reverse)

/-- Digit-string parser, the partial inverse of `iso` components
(model of the numeric part of `datetime.fromisoformat`). -/
def parseNat (s : String) : Option Nat :=
  if s.data.isEmpty then none
  else if s.data.all Char.isDigit then
    some (s.data.foldl (fun acc c => acc * 10 + (c.toNat - 48)) 0)
  else none

/-- Model of `datetime.fromisoformat` on strings produced by `iso`;
malformed strings yield `none` (Python raises `ValueError`). -/
def fromIso (s : String) : Option DateTime :=
  match splitChar '-' s with
  | [y, m, t] =>
      match parseNat y, parseNat m, parseNat t with
      | some a, some b, some c => some { year := a, month := b, tick := c }
      | _, _, _ => none
  | _ => none

/-- Python string comparison (lexicographic on code points), as a Boolean:
`pyStrLt a b` models `a < b` on Python strings.  `from_dict` compares the
stored version string against `Note.VERSION` with exactly this order. -/
def pyStrLtChars : List Char → List Char → Bool
  | [], [] => false
  | [], _ :: _ => true
  | _ :: _, [] => false
  | a :: as, b :: bs =>
      if a < b then true else if b < a then false else pyStrLtChars as bs

/-- Python `a < b` on strings. -/
def pyStrLt (a b : String) : Bool := pyStrLtChars a.data b.data

/-- The `metadata` dict attached to each note
(server.py lines 51-55: format_version, last_backup, checksum). -/
structure Metadata where
  format_version : String
  last_backup : Option String
  checksum : Option String
deriving DecidableEq, Repr

/-- `Note.VERSION` (server.py line 43): the format version string. -/
def Note.VERSION : String := "1.0.0"

/-- The `Note` dataclass (server.py lines 41-55). -/
structure Note where
  name : String
  content : String
  created : DateTime
  modified : DateTime
  tags : List String
  description : Option String
  metadata : Metadata
deriving DecidableEq, Repr

/-- The metadata produced by the dataclass `default_factory`
(server.py lines 51-55). -/
def freshMeta : Metadata :=
  { format_version := Note.VERSION, last_backup := none, checksum := none }

/-- The document emitted by `Note.to_dict` (server.py lines 57-74); field
for field the dict written to disk.  Timestamps stay abstracted: the code
writes `isoformat()` strings and reads them back with `fromisoformat`,
a bijection on values it produces. -/
structure NoteDoc where
  name : String
  content : String
  tags : List String
  description : Option String
  created : DateTime
  modified : DateTime
  version : String
  metadata : Metadata
deriving DecidableEq, Repr

/-- `Note.to_dict` (server.py lines 57-74).  The checksum is recomputed
from content and both timestamps and stored into `self.metadata` BEFORE the
dict is returned; since `data['metadata']` is the very same dict object as
`self.metadata`, the emitted document carries the updated checksum too.
The result pairs the mutated note with the emitted document. -/
def Note.to_dict (hash : String → String) (n : Note) : Note × NoteDoc :=
  let checksum := hash (n.content ++ iso n.created ++ iso n.modified)
  let meta : Metadata := { n.metadata with checksum := some checksum }
  ({ n with metadata := meta },
   { name := n.name, content := n.content, tags := n.tags,
     description := n.description, created := n.created, modified := n.modified,
     version := Note.VERSION, metadata := meta })

/-- Failure modes of `Note.from_dict`.  `versionNewer` is the
`ValueError` raised by the version gate (lines 79-82);
`checksumMismatch` is the `ValueError` at line 103, which is statically
unreachable; `nameErrorMetadata` is the `NameError` raised at line 96,
where the code reads the identifier `metadata`, which is bound neither in
`from_dict` nor at module level. -/
inductive NoteErr where
  | versionNewer : String → NoteErr
  | checksumMismatch : NoteErr
  | nameErrorMetadata : NoteErr
deriving DecidableEq, Repr

/-- `Note.from_dict` (server.py lines 76-105).  The version gate compares
the stored version string against `Note.VERSION` with Python string
comparison.  Past the gate the note is constructed from the document's
fields, and then line 96 evaluates `metadata.get('checksum')` where
`metadata` is an undefined identifier: a `NameError` is raised
unconditionally, before any checksum can be compared, so the function
never returns a note. -/
def Note.from_dict (d : NoteDoc) : Except NoteErr Note :=
  if pyStrLt Note.VERSION d.version then
    Except.error (NoteErr.versionNewer d.version)
  else
    let _note : Note :=
      { name := d.name, content := d.content, created := d.created,
        modified := d.modified, tags := d.tags, description := d.description,
        metadata := d.metadata }
    Except.error NoteErr.nameErrorMetadata

/-- Which `from_dict` failures correspond to the spec's `ValidationError`
taxon (a Python `ValueError`): the version gate and the checksum
comparison, but not the `NameError`. -/
def NoteErr.isValidation : NoteErr → Bool
  | NoteErr.versionNewer _ => true
  | NoteErr.checksumMismatch => true
  | NoteErr.nameErrorMetadata => false

/-- A deserialization result counts as failing with `ValidationError`
exactly when it is an error of a `ValueError` kind. -/
def failsWithValidationError : Except NoteErr Note → Bool
  | Except.error e => e.isValidation
  | Except.ok _ => false

/-- A filename-sanitized character (server.py line 148): anything that is
not alphanumeric, a dash, or an underscore becomes an underscore. -/
def sanitizeChar (c : Char) : Char :=
  if c.isAlphanum || c == '-' || c == '_' then c else '_'

/-- The sanitized filename stem of a note name (server.py line 148). -/
def sanitizeName (name : String) : String :=
  String.mk (name.data.map sanitizeChar)

/-- Zero-padded two-digit month component (server.py line 145). -/
def month2 (m : Nat) : String :=
  if m < 10 then "0" ++ toString m else toString m

/-- Root of the data directory inside the notes directory. -/
def dataDir : String := "data"

/-- `_get_note_path` with a known creation date (server.py lines 143-149):
`data/<year>/<month2>/<sanitized-name>.json`. -/
def note_path (name : String) (created : DateTime) : String :=
  dataDir ++ "/" ++ toString created.year ++ "/" ++ month2 created.month ++
    "/" ++ sanitizeName name ++ ".json"

/-- A JSON-ish value as stored in the index file: a string leaf or an
object.  Entries written by `_save_note` are objects of string leaves. -/
inductive Jv where
  | s : String → Jv
  | o : List (String × Jv) → Jv

/-- Failures of the created-date resolution inside `_get_note_path`:
missing `'created'` key, non-string where a string is indexed, or a
`fromisoformat` parse failure. -/
inductive PathErr where
  | keyError
  | typeError
  | parseError
deriving DecidableEq, Repr

/-- The `created is None` branch of `_get_note_path` (server.py lines
135-141): look the name up in the loaded index and parse its `'created'`
field; if the name is unknown, fall back to the current time. -/
def resolveCreated (idx : List (String × Jv)) (name : String) (now : DateTime) :
    Except PathErr DateTime :=
  match aget idx name with
  | none => Except.ok now
  | some (Jv.o entry) =>
      match aget entry "created" with
      | some (Jv.s str) =>
          match fromIso str with
          | some d => Except.ok d
          | none => Except.error PathErr.parseError
      | some (Jv.o _) => Except.error PathErr.typeError
      | none => Except.error PathErr.keyError
  | some (Jv.s _) => Except.error PathErr.typeError

/-- The `ResourceManager` state: the in-memory cache (`self.notes`), the
parsed content of `index.json`, the note files on disk (path to raw
content), and a count of change notifications broadcast so far (each
successful mutation awaits `_notify_changes`, which puts one token into
every subscriber queue). -/
structure MState where
  notes : List (String × Note)
  index : List (String × Jv)
  files : List (String × String)
  notified : Nat

/-- Errors surfaced by the `ResourceManager` operations.  `alreadyExists`
and `notFound` are the `ValueError`s of lines 302, 336, 351 and 388;
`typeErrorNoteInit` is the `TypeError` raised by the `Note(...)` call in
`add_note` (see `add_note` below); `pathError` is an exception escaping
`_get_note_path` during delete. -/
inductive MErr where
  | alreadyExists : String → MErr
  | notFound : String → MErr
  | typeErrorNoteInit : String → MErr
  | pathError : String → MErr
deriving DecidableEq, Repr

/-- `ResourceManager.add_note` (server.py lines 290-331).  After the
duplicate-name check, line 305 constructs
`Note(name=..., content=..., tags=..., description=...)` — but `created`
and `modified` are dataclass fields WITHOUT defaults, so this call raises
`TypeError: missing 2 required positional arguments` outside the
`try` block; the exception propagates and nothing is written or cached.
Everything after line 310 (the un-awaited `self._save_note(...)` coroutine,
the `index['notes'][name]` KeyError) is unreachable. -/
def add_note (name content : String) (tags : Option (List String))
    (descr : Option String) (s : MState) : Except MErr (Note × MState) :=
  if (aget s.notes name).isSome then Except.error (MErr.alreadyExists name)
  else Except.error (MErr.typeErrorNoteInit name)

/-- `ResourceManager.get_note` (server.py lines 333-337): cache lookup
only; unknown names raise `ValueError` (NotFound). -/
def get_note (s : MState) (name : String) : Except MErr Note :=
  match aget s.notes name with
  | none => Except.error (MErr.notFound name)
  | some n => Except.ok n

/-- `ResourceManager.update_note` (server.py lines 339-380): apply only
the supplied fields, refresh `modified` to the current time, then attempt
`await asyncio.to_thread(self._save_note, name, note)`.  `_save_note` is a
coroutine function, so the worker thread merely creates a coroutine object
that is never awaited: the save body never runs and can raise nothing, so
the operation always reaches the notification and returns the note. -/
def update_note (now : DateTime) (name : String) (content : Option String)
    (tags : Option (List String)) (descr : Option String) (s : MState) :
    Except MErr (Note × MState) :=
  match aget s.notes name with
  | none => Except.error (MErr.notFound name)
  | some note =>
      let note2 : Note :=
        { note with
          content := content.getD note.content,
          tags := tags.getD note.tags,
          description := match descr with | some d => some d | none => note.description,
          modified := now }
      Except.ok (note2,
        { s with notes := aset s.notes name note2, notified := s.notified + 1 })

/-- `ResourceManager.delete_note` (server.py lines 382-403): remove the
cache entry, recompute the path via `_get_note_path(name)` (which resolves
the creation date from the index, falling back to the current time),
unlink the file if it exists (unlink errors and a missing file are both
tolerated), broadcast a notification.  The index entry is never removed.
The result carries the final state even when `_get_note_path` raises,
because the cache entry was already deleted by then. -/
def delete_note (now : DateTime) (name : String) (s : MState) :
    Except MErr Unit × MState :=
  match aget s.notes name with
  | none => (Except.error (MErr.notFound name), s)
  | some _ =>
      let notes2 := aerase s.notes name
      match resolveCreated s.index name now with
      | Except.error _ =>
          (Except.error (MErr.pathError name), { s with notes := notes2 })
      | Except.ok c =>
          (Except.ok (),
           { s with notes := notes2,
                    files := aerase s.files (note_path name c),
                    notified := s.notified + 1 })

/-- ASCII lowercasing of one character (model of `str.lower` on the ASCII
inputs exercised here). -/
def pyLowerChar (c : Char) : Char :=
  if 65 ≤ c.toNat ∧ c.toNat ≤ 90 then Char.ofNat (c.toNat + 32) else c

/-- Model of Python `str.lower()`. -/
def pyLower (s : String) : String :=
  String.mk (s.data.map pyLowerChar)

/-- Does `needle` occur at the head of `hay`? -/
def charsStartWith : List Char → List Char → Bool
  | [], _ => true
  | _ :: _, [] => false
  | a :: as, b :: bs => a == b && charsStartWith as bs

/-- Does `needle` occur anywhere in `hay`?  (Python `needle in hay`.) -/
def charsContain (needle : List Char) : List Char → Bool
  | [] => charsStartWith needle []
  | c :: t => charsStartWith needle (c :: t) || charsContain needle t

/-- Python substring test `needle in hay`. -/
def strContains (hay needle : String) : Bool :=
  charsContain needle.data hay.data

/-- `ResourceManager.search_notes` (server.py lines 413-472).  The query is
lowercased; the field list defaults to all three when `search_in` is None
or empty (Python `or`); when tags are searched and the query contains a
comma it is split on commas into stripped tag terms.  A note matches if the
content contains the query, or a non-empty description contains the query,
or (when it has tags) the tag terms match — all of them under
`match_all_tags`, any one of them otherwise.  Results keep cache order. -/
def search_notes (query : String) (searchIn : Option (List String))
    (matchAllTags : Bool) (s : MState) : List (String × Note) :=
  let q := pyLower query
  let fields :=
    match searchIn with
    | some (f :: fs) => f :: fs
    | _ => ["content", "tags", "description"]
  let queryTags :=
    if fields.contains "tags" && q.data.contains ',' then
      (splitChar ',' q).map pyStrip
    else [q]
  s.notes.filter (fun p =>
    let note := p.2
    let mContent := fields.contains "content" && strContains (pyLower note.content) q
    let mDescr := fields.contains "description" &&
      (match note.description with
       | some d => !(d == "") && strContains (pyLower d) q
       | none => false)
    let mTags := fields.contains "tags" && !note.tags.isEmpty &&
      (if matchAllTags then
        queryTags.all (fun qt => note.tags.any (fun t => strContains (pyLower t) qt))
       else
        queryTags.any (fun qt => note.tags.any (fun t => strContains (pyLower t) qt)))
    mContent || mDescr || mTags)

/-- Injection point for a filesystem failure during an atomic write:
no failure, a failure while writing/flushing the temporary file, or a
failure during the atomic replace. -/
inductive FailPoint where
  | noFail
  | atWrite
  | atReplace
deriving DecidableEq, Repr

/-- The disk failure surfaced to a caller. -/
inductive IOErr where
  | ioFailure
deriving DecidableEq, Repr

/-- The temporary path used by both atomic writers (`target + ".tmp"`). -/
def tmpPath (target : String) : String := target ++ ".tmp"

/-- The atomic-write portion of `_save_note` (server.py lines 212-239):
write the serialized note to `target.tmp`, fsync, `os.replace` it onto
`target`; on any exception remove the temporary file if present and
RE-RAISE.  The result pairs the error surfaced to the caller with the
resulting filesystem. -/
def save_note_file (fp : FailPoint) (fs : List (String × String))
    (target content : String) : Option IOErr × List (String × String) :=
  match fp with
  | FailPoint.noFail =>
      (none, aset (aerase (aset fs (tmpPath target) content) (tmpPath target)) target content)
  | FailPoint.atWrite =>
      (some IOErr.ioFailure, aerase fs (tmpPath target))
  | FailPoint.atReplace =>
      (some IOErr.ioFailure, aerase (aset fs (tmpPath target) content) (tmpPath target))

/-- `_save_index` (server.py lines 161-173): the same temp-write/replace
protocol, but the `except` branch only logs and unlinks the temporary
file — it does NOT re-raise, so the caller never observes an error. -/
def save_index (fp : FailPoint) (fs : List (String × String))
    (target content : String) : Option IOErr × List (String × String) :=
  match fp with
  | FailPoint.noFail =>
      (none, aset (aerase (aset fs (tmpPath target) content) (tmpPath target)) target content)
  | FailPoint.atWrite =>
      (none, aerase fs (tmpPath target))
  | FailPoint.atReplace =>
      (none, aerase (aset fs (tmpPath target) content) (tmpPath target))

/-- Heap-identity model of Note construction without an explicit
`metadata` argument.  The dataclass declares
`metadata: dict = field(default_factory=lambda: {...})` (lines 51-55):
the factory runs at every such construction and each run evaluates a dict
display, allocating a new object.  `alloc` is the next free object id;
`metaRef` records which heap object the note's metadata field points to. -/
structure NoteObj where
  name : String
  content : String
  metaRef : Nat
deriving DecidableEq, Repr

/-- Construct a Note without passing `metadata`: the default factory
allocates a fresh dict, consuming one id from the supply. -/
def mkNoteDefaultMeta (name content : String) (alloc : Nat) : NoteObj × Nat :=
  ({ name := name, content := content, metaRef := alloc }, alloc + 1)

/-- Reference timestamp used by concrete stores. -/
def dt0 : DateTime := { year := 2024, month := 1, tick := 0 }

/-- A later timestamp. -/
def dt1 : DateTime := { year := 2024, month := 1, tick := 5 }

/-- An empty, freshly initialized store (empty cache, empty index as
written by `__init__`, no data files, no notifications yet). -/
def freshStore : MState := { notes := [], index := [], files := [], notified := 0 }

/-- A concrete note named "x" with content "hello". -/
def noteX : Note :=
  { name := "x", content := "hello", created := dt0, modified := dt0,
    tags := [], description := none, metadata := freshMeta }

/-- A store whose cache holds the note "x". -/
def storeWithX : MState :=
  { notes := [("x", noteX)], index := [], files := [], notified := 0 }

/-- A store holding note "x" in the cache and its backing file on disk;
the index has no entry for "x", so path resolution falls back to the
current time. -/
def storeFileX : MState :=
  { notes := [("x", noteX)], index := [],
    files := [(note_path "x" dt1, "body")], notified := 0 }

/-- A document whose metadata carries no checksum. -/
def docNoChecksum : NoteDoc :=
  { name := "x", content := "hello", tags := [], description := none,
    created := dt0, modified := dt0, version := Note.VERSION,
    metadata := { format_version := Note.VERSION, last_backup := none, checksum := none } }

/-- Note whose content is "The Alpha Protocol". -/
def noteAlpha : Note :=
  { name := "n1", content := "The Alpha Protocol", created := dt0, modified := dt0,
    tags := [], description := none, metadata := freshMeta }

/-- Note tagged urgent and draft, with content unrelated to the queries. -/
def noteTagged : Note :=
  { name := "n2", content := "misc", created := dt0, modified := dt0,
    tags := ["urgent", "draft"], description := none, metadata := freshMeta }

/-- Store holding the Alpha note. -/
def storeAlpha : MState :=
  { notes := [("n1", noteAlpha)], index := [], files := [], notified := 0 }

/-- Store holding the tagged note. -/
def storeTagged : MState :=
  { notes := [("n2", noteTagged)], index := [], files := [], notified := 0 }

/- ------------------------------------------------------------------ -/
/- Helper lemmas about the association-list operations.               -/
/- ------------------------------------------------------------------ -/

theorem aget_aset_self {α : Type} (l : List (String × α)) (k : String) (v : α) :
    aget (aset l k v) k = some v := by
  induction l with
  | nil => simp [aset, aget]
  | cons p t ih =>
    obtain ⟨q, w⟩ := p
    by_cases h : q = k
    · simp [aset, aget, h]
    · simp [aset, aget, h, ih]

theorem aget_aset_ne {α : Type} (l : List (String × α)) {k k2 : String} (v : α)
    (h : k ≠ k2) : aget (aset l k v) k2 = aget l k2 := by
  induction l with
  | nil => simp [aset, aget, h]
  | cons p t ih =>
    obtain ⟨q, w⟩ := p
    by_cases hq : q = k
    · subst hq
      simp [aset, aget, h]
    · simp [aset, aget, hq, ih]

theorem aget_aerase_self {α : Type} (l : List (String × α)) (k : String) :
    aget (aerase l k) k = none := by
  induction l with
  | nil => rfl
  | cons p t ih =>
    obtain ⟨q, w⟩ := p
    by_cases h : q = k
    · simpa [aerase, h] using ih
    · simp [aerase, aget, h, ih]

theorem aget_aerase_ne {α : Type} (l : List (String × α)) {k k2 : String}
    (h : k ≠ k2) : aget (aerase l k) k2 = aget l k2 := by
  induction l with
  | nil => rfl
  | cons p t ih =>
    obtain ⟨q, w⟩ := p
    by_cases hq : q = k
    · subst hq
      simp [aerase, aget, h, ih]
    · simp [aerase, aget, hq, ih]

theorem aerase_of_none {α : Type} (l : List (String × α)) (k : String)
    (h : aget l k = none) : aerase l k = l := by
  induction l with
  | nil => rfl
  | cons p t ih =>
    obtain ⟨q, w⟩ := p
    by_cases hq : q = k
    · simp [aget, hq] at h
    · simp [aget, hq] at h
      simp [aerase, hq, ih h]

theorem tmp_ne_target (t : String) : tmpPath t ≠ t := by
  intro h
  have h2 : (tmpPath t).length = t.length := congrArg String.length h
  have h3 : (tmpPath t).length = t.length + 4 := by
    show (t ++ ".tmp").length = t.length + 4
    rw [String.length_append]
    rfl
  omega

/- ------------------------------------------------------------------ -/
/- Claim theorems.                                                    -/
/- ------------------------------------------------------------------ -/

/-- Claim C1.  The claim states that on a fresh store `add("x","hello")`
succeeds and a subsequent `get("x")` returns content "hello", while a
second add while "x" is cached fails with AlreadyExists.  The code
disagrees on the first part: `add_note` constructs the Note without the
required `created`/`modified` dataclass fields, raising a `TypeError`
before anything is saved or cached, so a subsequent `get("x")` still
fails with NotFound.  The AlreadyExists half does hold when "x" is
already in the cache. -/
theorem spec_c1_add_then_get :
    add_note "x" "hello" none none freshStore =
      Except.error (MErr.typeErrorNoteInit "x") ∧
    get_note freshStore "x" = Except.error (MErr.notFound "x") ∧
    add_note "x" "hi" none none storeWithX =
      Except.error (MErr.alreadyExists "x") :=
  ⟨rfl, rfl, rfl⟩

/-- Claim C2.  The claimed serialize/deserialize round trip never
completes: for every note and every digest function, `from_dict` applied
to the document emitted by `to_dict` fails with the `NameError` raised at
server.py line 96, where the undefined identifier `metadata` is read, so
the stored checksum is never re-validated and no note is returned. -/
theorem spec_c2_roundtrip_name_error (hash : String → String) (n : Note) :
    Note.from_dict (Note.to_dict hash n).2 =
      Except.error NoteErr.nameErrorMetadata := by
  have hv : pyStrLt Note.VERSION Note.VERSION = false := by decide
  simp [Note.from_dict, Note.to_dict, hv]

/-- Claim C6.  Deserialization fails with a ValidationError (a Python
`ValueError`) exactly when the document's stored version string exceeds
`Note.VERSION` under Python string comparison — the comparison the code
actually performs; and whenever the stored version does not exceed it, the
document passes the version gate (execution proceeds to line 96 and its
`NameError`, which is not a ValidationError). -/
theorem spec_c6_version_gate (d : NoteDoc) :
    (failsWithValidationError (Note.from_dict d) = true ↔
      pyStrLt Note.VERSION d.version = true) ∧
    (Note.from_dict d = Except.error NoteErr.nameErrorMetadata ↔
      pyStrLt Note.VERSION d.version = false) := by
  cases h : pyStrLt Note.VERSION d.version with
  | false => simp [Note.from_dict, failsWithValidationError, h, NoteErr.isValidation]
  | true => simp [Note.from_dict, failsWithValidationError, h, NoteErr.isValidation]

/-- Claim C7.  The claim states that a document whose metadata carries no
checksum deserializes successfully with no validation performed.  The code
disagrees: even with `checksum := none`, evaluating line 96's
`metadata.get('checksum')` reads the undefined identifier `metadata` and
raises `NameError`, so deserialization fails on this document too. -/
theorem spec_c7_no_checksum_still_fails :
    docNoChecksum.metadata.checksum = none ∧
    Note.from_dict docNoChecksum = Except.error NoteErr.nameErrorMetadata := by
  constructor
  · rfl
  · rfl

/-- Claim C10.  The two distinct names "a.b" and "a,b" sanitize to the
same filename stem (every character that is not alphanumeric, a dash, or
an underscore becomes an underscore), so for any shared creation date
they map to the same on-disk path. -/
theorem spec_c10_name_collision (created : DateTime) :
    ("a.b" : String) ≠ "a,b" ∧
    note_path "a.b" created = note_path "a,b" created := by
  constructor
  · decide
  · have h : sanitizeName "a.b" = sanitizeName "a,b" := rfl
    unfold note_path
    rw [h]

/-- Claim C3.  For every cached note, `update_note` applies exactly the
supplied fields: an unsupplied content, tags, or description keeps its
prior value, a supplied field takes the supplied value, `modified` is set
to the current time — and, whenever the clock has advanced past the note's
previous `modified`, the timestamp strictly advances.  Name and `created`
are untouched and the cache holds the updated note afterwards. -/
theorem spec_c3_update_frame (s : MState) (name : String) (note : Note)
    (now : DateTime) (co : Option String) (tg : Option (List String))
    (de : Option String) (hmem : aget s.notes name = some note)
    (hnow : note.modified < now) :
    ∃ note2 s2, update_note now name co tg de s = Except.ok (note2, s2) ∧
      note2.modified = now ∧
      note.modified < note2.modified ∧
      (co = none → note2.content = note.content) ∧
      (∀ c, co = some c → note2.content = c) ∧
      (tg = none → note2.tags = note.tags) ∧
      (∀ ts, tg = some ts → note2.tags = ts) ∧
      (de = none → note2.description = note.description) ∧
      note2.name = note.name ∧
      note2.created = note.created ∧
      aget s2.notes name = some note2 := by
  unfold update_note
  rw [hmem]
  refine ⟨_, _, rfl, rfl, hnow, ?_, ?_, ?_, ?_, ?_, rfl, rfl, ?_⟩
  · intro h; subst h; rfl
  · intro c h; subst h; rfl
  · intro h; subst h; rfl
  · intro ts h; subst h; rfl
  · intro h; subst h; rfl
  · exact aget_aset_self s.notes name _

/-- Witness for C3: the concrete call `update("x", tags=["a","b"])` on a
store caching note "x". -/
theorem spec_c3_witness :
    ∃ note2 s2,
      update_note dt1 "x" none (some ["a", "b"]) none storeWithX =
        Except.ok (note2, s2) ∧
      note2.modified = dt1 ∧
      noteX.modified < note2.modified ∧
      ((none : Option String) = none → note2.content = noteX.content) ∧
      (∀ c, (none : Option String) = some c → note2.content = c) ∧
      ((some ["a", "b"] : Option (List String)) = none → note2.tags = noteX.tags) ∧
      (∀ ts, (some ["a", "b"] : Option (List String)) = some ts → note2.tags = ts) ∧
      ((none : Option String) = none → note2.description = noteX.description) ∧
      note2.name = noteX.name ∧
      note2.created = noteX.created ∧
      aget s2.notes "x" = some note2 :=
  spec_c3_update_frame storeWithX "x" noteX dt1 none (some ["a", "b"]) none rfl
    (by decide)

/-- Claim C4.  For every cached note whose creation date resolves from the
index (or falls back to the current time when the name is not indexed),
`delete_note` succeeds, removes the cache entry (so a subsequent get fails
with NotFound), unlinks the backing file at the derived path (a missing
file leaves the filesystem unchanged and the delete still succeeds),
broadcasts one notification, and leaves the index untouched. -/
theorem get_note_of_none (s : MState) (name : String)
    (h : aget s.notes name = none) :
    get_note s name = Except.error (MErr.notFound name) := by
  unfold get_note
  rw [h]

theorem spec_c4_delete (s : MState) (name : String) (note : Note)
    (now c : DateTime) (hmem : aget s.notes name = some note)
    (hc : resolveCreated s.index name now = Except.ok c) :
    ∃ s2, delete_note now name s = (Except.ok (), s2) ∧
      get_note s2 name = Except.error (MErr.notFound name) ∧
      s2.files = aerase s.files (note_path name c) ∧
      (aget s.files (note_path name c) = none → s2.files = s.files) ∧
      s2.index = s.index ∧
      s2.notified = s.notified + 1 := by
  refine ⟨MState.mk (aerase s.notes name) s.index
      (aerase s.files (note_path name c)) (s.notified + 1),
    ?_, ?_, rfl, ?_, rfl, rfl⟩
  · unfold delete_note
    rw [hmem, hc]
  · exact get_note_of_none _ _ (aget_aerase_self s.notes name)
  · intro h
    exact aerase_of_none s.files (note_path name c) h

/-- Witness for C4: deleting "x" from a store that caches it and holds its
backing file; "x" is absent from the index, so the creation date falls
back to the supplied current time. -/
theorem spec_c4_witness :
    ∃ s2, delete_note dt1 "x" storeFileX = (Except.ok (), s2) ∧
      get_note s2 "x" = Except.error (MErr.notFound "x") ∧
      s2.files = aerase storeFileX.files (note_path "x" dt1) ∧
      (aget storeFileX.files (note_path "x" dt1) = none →
        s2.files = storeFileX.files) ∧
      s2.index = storeFileX.index ∧
      s2.notified = storeFileX.notified + 1 :=
  spec_c4_delete storeFileX "x" noteX dt1 dt1 rfl rfl

/-- Counterexample to claim C5 as stated.  The claim requires the index
writer to propagate errors on failure, like the note writer.  It does not:
with a failure injected at the atomic-replace step, `_save_index` returns
no error to its caller (the exception is logged and swallowed), even
though the target file still holds its old content. -/
theorem spec_c5_counterexample :
    (save_index FailPoint.atReplace [("index.json", "old")] "index.json" "new").1
      = none ∧
    aget (save_index FailPoint.atReplace [("index.json", "old")] "index.json" "new").2
      "index.json" = some "old" :=
  ⟨rfl, rfl⟩

/-- Claim C5, amended.  For every failure injected into the
write-temp-then-replace sequence: the note-file writer removes the
temporary file, leaves the target at its prior content, and propagates the
error; the index writer removes the temporary file and leaves the target
at its prior content as well, but swallows the error instead of
propagating it. -/
theorem spec_c5_amended_protocol (fp : FailPoint) (fs : List (String × String))
    (target content : String) (hfp : fp ≠ FailPoint.noFail) :
    (save_note_file fp fs target content).1 = some IOErr.ioFailure ∧
    aget (save_note_file fp fs target content).2 (tmpPath target) = none ∧
    aget (save_note_file fp fs target content).2 target = aget fs target ∧
    (save_index fp fs target content).1 = none ∧
    aget (save_index fp fs target content).2 (tmpPath target) = none ∧
    aget (save_index fp fs target content).2 target = aget fs target := by
  have hne : tmpPath target ≠ target := tmp_ne_target target
  cases fp with
  | noFail => exact absurd rfl hfp
  | atWrite =>
      exact ⟨rfl, aget_aerase_self fs (tmpPath target), aget_aerase_ne fs hne,
        rfl, aget_aerase_self fs (tmpPath target), aget_aerase_ne fs hne⟩
  | atReplace =>
      refine ⟨rfl, aget_aerase_self _ _, ?_, rfl, aget_aerase_self _ _, ?_⟩
      · show aget (aerase (aset fs (tmpPath target) content) (tmpPath target))
            target = aget fs target
        rw [aget_aerase_ne _ hne, aget_aset_ne _ content hne]
      · show aget (aerase (aset fs (tmpPath target) content) (tmpPath target))
            target = aget fs target
        rw [aget_aerase_ne _ hne, aget_aset_ne _ content hne]

/-- Witness for the amended C5: a failure injected while writing the
temporary file, over a filesystem holding the target. -/
theorem spec_c5_amended_witness :
    (save_note_file FailPoint.atWrite [("t", "old")] "t" "c").1 =
      some IOErr.ioFailure ∧
    aget (save_note_file FailPoint.atWrite [("t", "old")] "t" "c").2
      (tmpPath "t") = none ∧
    aget (save_note_file FailPoint.atWrite [("t", "old")] "t" "c").2 "t" =
      aget [("t", "old")] "t" ∧
    (save_index FailPoint.atWrite [("t", "old")] "t" "c").1 = none ∧
    aget (save_index FailPoint.atWrite [("t", "old")] "t" "c").2
      (tmpPath "t") = none ∧
    aget (save_index FailPoint.atWrite [("t", "old")] "t" "c").2 "t" =
      aget [("t", "old")] "t" :=
  spec_c5_amended_protocol FailPoint.atWrite [("t", "old")] "t" "c" (by decide)

/-- Claim C8.  A note with content "The Alpha Protocol" matches the query
"alpha" under default fields (case-insensitive substring).  A note with
tags ["urgent","draft"] does not match "urgent,final" with
match_all_tags=true (the term "final" is a substring of no tag), but does
match it with match_all_tags=false (the term "urgent" suffices). -/
theorem spec_c8_search_semantics :
    search_notes "alpha" none false storeAlpha = [("n1", noteAlpha)] ∧
    search_notes "urgent,final" none true storeTagged = [] ∧
    search_notes "urgent,final" none false storeTagged = [("n2", noteTagged)] := by
  refine ⟨?_, ?_, ?_⟩
  · rfl
  · rfl
  · rfl

/-- Claim C9.  Every Note constructed without an explicit `metadata`
argument gets a metadata object freshly allocated by the dataclass
`default_factory`; under the heap-identity model of construction, a note
built later (from any allocation supply at least the one left by an
earlier construction) can never reference the earlier note's metadata
object. -/
theorem spec_c9_fresh_metadata (n1 c1 n2 c2 : String) (a a2 : Nat)
    (h : (mkNoteDefaultMeta n1 c1 a).2 ≤ a2) :
    (mkNoteDefaultMeta n2 c2 a2).1.metaRef ≠ (mkNoteDefaultMeta n1 c1 a).1.metaRef := by
  have h2 : a + 1 ≤ a2 := h
  show a2 ≠ a
  omega

/-- Witness for C9: two notes constructed back to back from a fresh
allocation supply reference distinct metadata objects. -/
theorem spec_c9_witness :
    (mkNoteDefaultMeta "b" "world" 1).1.metaRef ≠
      (mkNoteDefaultMeta "a" "hello" 0).1.metaRef :=
  spec_c9_fresh_metadata "a" "hello" "b" "world" 0 1 (by decide)
